import Mathlib

/-!
Shallow embedding of the odoo_rag repository core:
  - `src/odoo_rag/indexer.py`  (OdooModuleParser)
  - `src/odoo_rag/vectorstore.py` (OdooVectorStore)
  - `src/odoo_rag/rag.py` (OdooRAG)
Python dict values are modelled by `PyVal`, Python AST nodes by `PyExpr` /
`PyStmt` / `ClassDef`, and the external ChromaDB index by an ordered list of
stored chunks (the order standing for ascending embedding distance).
-/

namespace OdooRag

/-- A Python scalar value, as the dicts the indexer builds hold them
(manifest entries, field attributes, chunk metadata — ChromaDB metadata
values are scalar). -/
inductive PyVal where
  | none
  | bool (b : Bool)
  | int (n : Int)
  | str (s : String)
deriving DecidableEq

/-- Python `==` on these scalars, as ChromaDB's metadata equality filter
applies it. -/
instance : BEq PyVal := ⟨fun a b => decide (a = b)⟩

/-- Python `repr()` of a value (strings quoted), used for dict entries. -/
def PyVal.pyRepr : PyVal → String
  | .none => "None"
  | .bool true => "True"
  | .bool false => "False"
  | .int n => toString n
  | .str s => "'" ++ s ++ "'"

/-- Python `str()` of a value, as used by f-string interpolation. -/
def PyVal.pyStr : PyVal → String
  | .none => "None"
  | .bool true => "True"
  | .bool false => "False"
  | .int n => toString n
  | .str s => s

/-- Python truthiness of a value (`if model.get('_description'):` etc.). -/
def PyVal.truthy : PyVal → Bool
  | .none => false
  | .bool b => b
  | .int n => !(n == 0)
  | .str s => !(s == "")

/-- Python `a or b` where the result is used as a value:
`model.get('_name') or model['name']`. -/
def pyOr (a b : PyVal) : PyVal := if a.truthy then a else b

/-- A Python dict with string keys, in insertion order. -/
abbrev PyDict := List (String × PyVal)

/-- `d[k] = v` on a dict whose key `k` already exists (keys stay unique
and in place, as in CPython). -/
def dictSet (d : PyDict) (k : String) (v : PyVal) : PyDict :=
  d.map (fun p => if p.1 == k then (k, v) else p)

/-- `d.get(k)` — `Option.none` when the key is absent. -/
def dictGet (d : PyDict) (k : String) : Option PyVal :=
  List.lookup k d

/-- Python `str(dict)`: `{'k': repr(v), ...}`. -/
def pyDictStr (d : PyDict) : String :=
  "\x7b" ++ String.intercalate ", " (d.map fun p => "'" ++ p.1 ++ "': " ++ PyVal.pyRepr p.2) ++ "\x7d"

/-! ## Python AST fragment (`ast` module), as used by `indexer.py` -/

/-- The expression forms `OdooModuleParser` inspects: `ast.Name`,
`ast.Attribute`, `ast.Constant`, `ast.Call` (with keyword arguments);
everything else is `other`. -/
inductive PyExpr where
  | name (id : String)
  | attr (value : PyExpr) (attr : String)
  | const (value : PyVal)
  | call (func : PyExpr) (keywords : List (Option String × PyExpr))
  | other

/-- The statement forms inspected inside a class body: `ast.Assign` and
`ast.FunctionDef`; everything else is `other`. -/
inductive PyStmt where
  | assign (targets : List PyExpr) (value : PyExpr)
  | functionDef (name : String) (lineno endLineno : Nat) (decoratorList : List PyExpr)
  | other

/-- An `ast.ClassDef` node. -/
structure ClassDef where
  name : String
  bases : List PyExpr
  lineno : Nat
  endLineno : Nat
  body : List PyStmt

/-! ## indexer.py : OdooModuleParser -/

/-- `OdooModuleParser._get_attribute_full_name`, inner loop: collect `.attr`
components while the node is an Attribute, then the terminal `Name` id if
there is one (dropped otherwise), innermost first. -/
def attrNameParts : PyExpr → List String
  | .attr value a => attrNameParts value ++ [a]
  | .name id => [id]
  | _ => []

/-- `OdooModuleParser._get_attribute_full_name`: the dotted name of an
attribute chain. -/
def get_attribute_full_name (e : PyExpr) : String :=
  String.intercalate "." (attrNameParts e)

/-- One base-class test of `OdooModuleParser._is_odoo_model`: a direct name
in `('Model', 'TransientModel', 'AbstractModel')`, or an attribute whose
dotted name is in `('models.Model', 'models.TransientModel',
'models.AbstractModel')`. -/
def isOdooBase : PyExpr → Bool
  | .name id => id == "Model" || id == "TransientModel" || id == "AbstractModel"
  | .attr value a =>
      let s := get_attribute_full_name (.attr value a)
      s == "models.Model" || s == "models.TransientModel" || s == "models.AbstractModel"
  | _ => false

/-- `OdooModuleParser._is_odoo_model`. -/
def is_odoo_model (class_def : ClassDef) : Bool :=
  class_def.bases.any isOdooBase

/-- `OdooModuleParser._is_field_definition`: a call whose function is an
attribute on the bare name `fields`. -/
def is_field_definition : PyExpr → Bool
  | .call (.attr (.name id) _) _ => id == "fields"
  | _ => false

/-- `OdooModuleParser._extract_field_info`: the dict
`{'name', 'type', 'string', 'required', 'readonly', 'comodel_name'}`,
type taken from the called attribute, literal-constant keywords copied in. -/
def extract_field_info (name : String) (call_node : PyExpr) : PyDict :=
  let field_info : PyDict :=
    [("name", .str name), ("type", .none), ("string", .none),
     ("required", .bool false), ("readonly", .bool false), ("comodel_name", .none)]
  let field_info :=
    match call_node with
    | .call (.attr _ a) _ => dictSet field_info "type" (.str a)
    | _ => field_info
  match call_node with
  | .call _ keywords =>
      keywords.foldl (fun d kw =>
        match kw with
        | (some arg, .const v) =>
            if (d.map Prod.fst).contains arg then dictSet d arg v else d
        | _ => d) field_info
  | _ => field_info

/-- A method record built by `_extract_model_info` (`ast.FunctionDef`). -/
structure MethodInfo where
  name : String
  line_start : Nat
  line_end : Nat
  decorators : List String
deriving DecidableEq

/-- A model record built by `OdooModuleParser._extract_model_info`. -/
structure ModelInfo where
  name : String
  file_path : String
  line_start : Nat
  line_end : Nat
  techName : PyVal      -- the `_name` entry
  inherit : PyVal       -- the `_inherit` entry
  description : PyVal   -- the `_description` entry
  fields : List PyDict
  methods : List MethodInfo
deriving DecidableEq

/-- One body-statement step of `OdooModuleParser._extract_model_info`. -/
def extractModelStep (acc : ModelInfo) : PyStmt → ModelInfo
  | .assign targets value =>
      match targets.filterMap (fun t => match t with | .name id => some id | _ => Option.none) with
      | [] => acc
      | nm :: _ =>
          if nm == "_name" || nm == "_inherit" || nm == "_description" then
            match value with
            | .const v =>
                if nm == "_name" then { acc with techName := v }
                else if nm == "_inherit" then { acc with inherit := v }
                else { acc with description := v }
            | _ => acc
          else if is_field_definition value then
            { acc with fields := acc.fields ++ [extract_field_info nm value] }
          else acc
  | .functionDef nm ls le decs =>
      { acc with methods := acc.methods ++
          [⟨nm, ls, le, decs.filterMap (fun d => match d with | .name id => some id | _ => Option.none)⟩] }
  | .other => acc

/-- `OdooModuleParser._extract_model_info`. -/
def extract_model_info (class_def : ClassDef) (file_path : String) : ModelInfo :=
  class_def.body.foldl extractModelStep
    { name := class_def.name, file_path := file_path,
      line_start := class_def.lineno, line_end := class_def.endLineno,
      techName := .none, inherit := .none, description := .none,
      fields := [], methods := [] }

/-- `OdooModuleParser.parse_model_file`. The file's text is represented by
the outcome of `ast.parse` on it: `.ok` carries the class definitions that
`ast.walk` visits, in order; `.error` is any exception raised while parsing
(caught and logged by the source, which then returns the models collected so
far — none). -/
def parse_model_file (file_path : String) : Except String (List ClassDef) → List ModelInfo
  | .error _ => []
  | .ok classes =>
      classes.foldl
        (fun models c =>
          if is_odoo_model c then models ++ [extract_model_info c file_path] else models)
        []

/-- `OdooModuleParser.parse_manifest`. `manifestExists` is the
`manifest_path.exists()` test, `content` the text read from the file, and
`literalEval` stands for Python's `ast.literal_eval`: `.ok` is the parsed
dict, `.error` a `SyntaxError`/`ValueError` (caught and logged by the
source, which then returns `{}`). -/
def parse_manifest (manifestExists : Bool) (content : String)
    (literalEval : String → Except String PyDict) : PyDict :=
  if manifestExists then
    match literalEval content with
    | .ok manifest_dict => manifest_dict
    | .error _ => []
  else []

/-- A view record of `OdooModuleParser.parse_view_file` (one
`ir.ui.view` record dict; every value nullable). -/
structure ViewInfo where
  id : PyVal
  name : PyVal
  model : PyVal
  type : PyVal
  arch : PyVal
  inherit_id : PyVal
  file_path : String
deriving DecidableEq

/-- The per-module state assembled by `OdooModuleParser.index_module`
(scripts and data files are not used by `extract_chunks_for_embedding`). -/
structure ModuleData where
  name : String
  path : String
  manifest : PyDict
  models : List ModelInfo
  views : List ViewInfo
deriving DecidableEq

/-- A chunk produced by `extract_chunks_for_embedding`: text plus a
metadata dict. -/
structure Chunk where
  content : String
  metadata : PyDict
deriving DecidableEq

/-- The model-chunk text of `extract_chunks_for_embedding` (the
`model_content` accumulation). -/
def modelChunkContent (model : ModelInfo) : String :=
  let c := "Model: " ++ (pyOr model.techName (.str model.name)).pyStr ++ "\n"
  let c := c ++ "Class: " ++ model.name ++ "\n"
  let c := if model.description.truthy then
      c ++ "Description: " ++ model.description.pyStr ++ "\n" else c
  let c := if model.inherit.truthy then
      c ++ "Inherits: " ++ model.inherit.pyStr ++ "\n" else c
  let c := if !model.fields.isEmpty then
      c ++ "Fields:\n" ++ String.join (model.fields.map fun field =>
        "  - " ++ ((dictGet field "name").getD .none).pyStr ++ " ("
          ++ ((dictGet field "type").getD .none).pyStr ++ "): "
          ++ ((dictGet field "string").getD .none).pyStr ++ "\n")
      else c
  let c := if !model.methods.isEmpty then
      c ++ "Methods:\n" ++ String.join (model.methods.map fun method =>
        "  - " ++ method.name ++
          (if !method.decorators.isEmpty then
            " (decorated with: " ++ String.intercalate ", " method.decorators ++ ")"
          else "") ++ "\n")
      else c
  c

/-- The view-chunk text of `extract_chunks_for_embedding` (the
`view_content` accumulation). -/
def viewChunkContent (view : ViewInfo) : String :=
  let c := "View: " ++ view.name.pyStr ++ "\n"
  let c := c ++ "Model: " ++ view.model.pyStr ++ "\n"
  let c := c ++ "Type: " ++ view.type.pyStr ++ "\n"
  let c := if view.inherit_id.truthy then
      c ++ "Inherits view: " ++ view.inherit_id.pyStr ++ "\n" else c
  let c := if view.arch.truthy then
      c ++ "Architecture:\n" ++ view.arch.pyStr else c
  c

/-- The manifest chunk of `extract_chunks_for_embedding` for one module. -/
def manifestChunk (md : ModuleData) : Chunk :=
  { content := "Module: " ++ md.name ++ "\nManifest: " ++ pyDictStr md.manifest,
    metadata := [("module", .str md.name), ("type", .str "manifest"),
                 ("path", .str md.path)] }

/-- The model chunk of `extract_chunks_for_embedding` for one model record. -/
def modelChunk (module_name : String) (model : ModelInfo) : Chunk :=
  { content := modelChunkContent model,
    metadata := [("module", .str module_name), ("type", .str "model"),
                 ("model_name", pyOr model.techName (.str model.name)),
                 ("path", .str model.file_path),
                 ("line_start", .int model.line_start),
                 ("line_end", .int model.line_end)] }

/-- The view chunk of `extract_chunks_for_embedding` for one view record. -/
def viewChunk (module_name : String) (view : ViewInfo) : Chunk :=
  { content := viewChunkContent view,
    metadata := [("module", .str module_name), ("type", .str "view"),
                 ("view_id", view.id), ("path", .str view.file_path)] }

/-- The chunks `extract_chunks_for_embedding` appends for one module:
the manifest chunk, then one chunk per model, then one chunk per view. -/
def moduleChunks (md : ModuleData) : List Chunk :=
  manifestChunk md :: (md.models.map (modelChunk md.name) ++ md.views.map (viewChunk md.name))

/-- `OdooModuleParser.extract_chunks_for_embedding`: iterate
`self.modules.items()` in insertion order, appending each module's chunks. -/
def extract_chunks_for_embedding (modules : List ModuleData) : List Chunk :=
  modules.flatMap moduleChunks

/-! ## vectorstore.py : OdooVectorStore

The ChromaDB collection is modelled as a list of stored chunks; for a given
query the external index returns matches in ascending embedding distance, so
the list order stands for that ranking. A `where` clause is a conjunction of
exact-equality tests on metadata fields; a document lacking a filtered key
does not match. -/

/-- One conjunct of a ChromaDB `where` clause against a metadata dict. -/
def matchesClause (metadata : PyDict) (clause : String × PyVal) : Bool :=
  match dictGet metadata clause.1 with
  | some v => v == clause.2
  | Option.none => false

/-- A full `where` clause: exact equality, conjunctive across keys
(an empty clause matches everything, as passing `where=None` does). -/
def matchesWhere (filter : PyDict) (metadata : PyDict) : Bool :=
  filter.all (matchesClause metadata)

/-- `OdooVectorStore.search`: query the collection with `n_results = k` and
the given equality filter; the external index returns up to `k` best matches
in ascending distance (list order). The query text only influences that
ranking, which the store order already fixes here. -/
def search (store : List Chunk) (query : String) (filter : PyDict) (k : Nat) : List Chunk :=
  (store.filter (fun c => matchesWhere filter c.metadata)).take k

/-- `OdooVectorStore.search_by_module`. -/
def search_by_module (store : List Chunk) (query : String) (module_name : String) (k : Nat) : List Chunk :=
  search store query [("module", .str module_name)] k

/-- `OdooVectorStore.search_by_type`. -/
def search_by_type (store : List Chunk) (query : String) (content_type : String) (k : Nat) : List Chunk :=
  search store query [("type", .str content_type)] k

/-- `OdooVectorStore.search_by_model`: exact matches on the `model_name`
metadata field first; when fewer than `k` come back, a second search
restricted to `type = 'view'` and `model = <name>` for the remaining count,
appended after the exact matches. -/
def search_by_model (store : List Chunk) (query : String) (model_name : String) (k : Nat) : List Chunk :=
  let exact_matches := search store query [("model_name", .str model_name)] k
  if exact_matches.length < k then
    exact_matches ++
      search store query [("type", .str "view"), ("model", .str model_name)] (k - exact_matches.length)
  else
    exact_matches

/-! ## rag.py : OdooRAG

The Anthropic client is external; each answer-producing method is modelled
as a pure function returning the retrieved documents, the template it chose,
and the list of generation calls it issues (`client.messages.create`).
The temperature is configuration passed through untouched, so its type is a
parameter. -/

/-- `OdooRAG.default_template`. -/
def default_template : String :=
  "You are an Odoo expert assistant that helps developers understand Odoo code and modules.\n" ++
  "Use the following pieces of context to answer the question at the end.\n" ++
  "If you don't know the answer, just say you don't know. Don't try to make up an answer.\n" ++
  "Keep your answers technical and focused on Odoo development.\n\n" ++
  "Context:\n{context_str}\n\n" ++
  "Question: {query_str}\n\n" ++
  "Answer:"

/-- `OdooRAG.model_template`. -/
def model_template : String :=
  "You are an Odoo expert assistant that helps developers understand Odoo models and fields.\n" ++
  "Use the following pieces of context about Odoo models to answer the question at the end.\n" ++
  "Explain Odoo ORM concepts clearly and provide examples when relevant.\n\n" ++
  "Context:\n{context_str}\n\n" ++
  "Question: {query_str}\n\n" ++
  "Answer:"

/-- `OdooRAG.view_template`. -/
def view_template : String :=
  "You are an Odoo expert assistant that helps developers understand Odoo views and UI.\n" ++
  "Use the following pieces of context about Odoo views to answer the question at the end.\n" ++
  "Explain view inheritance and XML structure clearly when relevant.\n\n" ++
  "Context:\n{context_str}\n\n" ++
  "Question: {query_str}\n\n" ++
  "Answer:"

/-- `OdooRAG.module_list_template`. -/
def module_list_template : String :=
  "You are an Odoo expert assistant that helps developers understand the available modules.\n" ++
  "List all unique modules found in the context, including their names and brief descriptions if available.\n" ++
  "Make sure to format the output as a numbered list and include ALL unique modules.\n" ++
  "Context:\n{context_str}\n\n" ++
  "Question: {query_str}\n\n" ++
  "Answer:"

/-- `OdooRAG.sequence_diagram_template`. -/
def sequence_diagram_template : String :=
  "You are an Odoo expert that creates MermaidJS sequence diagrams of business processes.\n" ++
  "Based on the provided context about an Odoo module or feature, create a comprehensive MermaidJS sequence diagram\n" ++
  "that shows the flow of business processes, including actors, models, and key methods.\n\n" ++
  "Focus on the main business flows and include:\n" ++
  "1. All relevant actors (users, system roles)\n" ++
  "2. Key models and their interactions\n" ++
  "3. Important method calls that represent business logic\n" ++
  "4. UI interactions where relevant\n\n" ++
  "The diagram should represent the actual implementation details found in the context,\n" ++
  "not generic or hypothetical flows. Be specific to the code provided.\n\n" ++
  "Use proper MermaidJS sequence diagram syntax, enclosed in mermaid code blocks.\n\n" ++
  "Context:\n{context_str}\n\n" ++
  "Question: {query_str}\n\n" ++
  "Answer with a MermaidJS sequence diagram:"

/-- One labelled context block of `OdooRAG._format_context`:
`[Document i] Module: …, Path: …, Type: …` then the content. The path is
read from the metadata key `file_path` with default `"unknown"`. -/
def formatDoc (i : Nat) (doc : Chunk) : String :=
  let metadata := doc.metadata
  let module := ((dictGet metadata "module").map PyVal.pyStr).getD "unknown"
  let file_path := ((dictGet metadata "file_path").map PyVal.pyStr).getD "unknown"
  let doc_type := ((dictGet metadata "type").map PyVal.pyStr).getD "unknown"
  let header := "[Document " ++ toString i ++ "] Module: " ++ module ++
    ", Path: " ++ file_path ++ ", Type: " ++ doc_type
  header ++ "\n" ++ doc.content ++ "\n"

/-- `OdooRAG._format_context`. -/
def format_context (documents : List Chunk) : String :=
  if documents.isEmpty then
    "No relevant documents found."
  else
    String.intercalate "\n" (documents.enum.map (fun p => formatDoc (p.1 + 1) p.2))

/-- The diagram-intent keywords of `_select_prompt_for_question`. -/
def diagram_keywords : List String :=
  ["sequence diagram", "process diagram", "flow diagram", "mermaid", "business flow",
   "business process", "sequence flow", "workflow diagram"]

/-- The module-listing keywords of `_select_prompt_for_question`. -/
def module_list_keywords : List String :=
  ["list modules", "list all modules", "show modules", "available modules", "what modules"]

/-- The model-domain keywords of `_select_prompt_for_question`. -/
def model_keywords : List String :=
  ["model", "field", "orm", "inheritance", "method", "record", "database"]

/-- The view-domain keywords of `_select_prompt_for_question`. -/
def view_keywords : List String :=
  ["view", "form", "tree", "kanban", "xml", "qweb", "ui", "button", "action"]

/-- Whether `pat` occurs at the start of `s` (character lists). -/
def startsWithChars : List Char → List Char → Bool
  | [], _ => true
  | _ :: _, [] => false
  | p :: ps, c :: cs => p == c && startsWithChars ps cs

/-- Python `pat in s` on strings: `pat` occurs contiguously in `s`. -/
def containsSub (s pat : List Char) : Bool :=
  match s with
  | [] => pat.isEmpty
  | _ :: rest => startsWithChars pat s || containsSub rest pat

/-- `any(keyword in question_lower for keyword in kws)` — Python `in` on
strings is the substring test. -/
def anyKeyword (question_lower : String) (kws : List String) : Bool :=
  kws.any (fun keyword => containsSub question_lower.toList keyword.toList)

/-- `question.lower()` — `String.map Char.toLower` expressed through the
underlying character list so that terms evaluate. -/
def strLower (s : String) : String :=
  String.mk (s.data.map Char.toLower)

/-- `OdooRAG._select_prompt_for_question`. -/
def select_prompt_for_question (question : String) : String :=
  let question_lower := strLower question
  if anyKeyword question_lower diagram_keywords then sequence_diagram_template
  else if anyKeyword question_lower module_list_keywords then module_list_template
  else if anyKeyword question_lower model_keywords then model_template
  else if anyKeyword question_lower view_keywords then view_template
  else default_template

/-- `template.format(context_str=…, query_str=…)` on the two placeholders. -/
def formatPrompt (template context_str query_str : String) : String :=
  (template.replace "{context_str}" context_str).replace "{query_str}" query_str

/-- One `client.messages.create` call: model id, `max_tokens`, temperature
(passed straight from configuration; its type `τ` is abstract), and the one
user message. -/
structure GenCall (τ : Type) where
  model : String
  max_tokens : Nat
  temperature : τ
  prompt : String

/-- The `OdooRAG` configuration (`model_name`, `temperature`). -/
structure RagConfig (τ : Type) where
  model_name : String
  temperature : τ

/-- What one answer-producing method does: the documents it retrieved, the
template it used, the generation calls it issued (in order), and the
returned `source_documents`. -/
structure RagRun (τ : Type) where
  docs : List Chunk
  template : String
  genCalls : List (GenCall τ)

/-- `OdooRAG.answer_question`: search with `k = 5`, format context, route
the template by keywords, one generation call with `max_tokens=1000`. -/
def answer_question {τ : Type} (cfg : RagConfig τ) (store : List Chunk)
    (question : String) (filter : PyDict) : RagRun τ :=
  let docs := search store question filter 5
  let context_str := format_context docs
  let prompt_template := select_prompt_for_question question
  let prompt := formatPrompt prompt_template context_str question
  { docs := docs, template := prompt_template,
    genCalls := [{ model := cfg.model_name, max_tokens := 1000,
                   temperature := cfg.temperature, prompt := prompt }] }

/-- `OdooRAG.answer_about_module`: `answer_question` with a module filter. -/
def answer_about_module {τ : Type} (cfg : RagConfig τ) (store : List Chunk)
    (question : String) (module_name : String) : RagRun τ :=
  answer_question cfg store question [("module", .str module_name)]

/-- `OdooRAG.answer_about_model`: retrieval through `search_by_model` with
`k = 5`, always the model template, one call with `max_tokens=1000`. -/
def answer_about_model {τ : Type} (cfg : RagConfig τ) (store : List Chunk)
    (question : String) (model_name : String) : RagRun τ :=
  let docs := search_by_model store question model_name 5
  let context_str := format_context docs
  let prompt_template := model_template
  let prompt := formatPrompt prompt_template context_str question
  { docs := docs, template := prompt_template,
    genCalls := [{ model := cfg.model_name, max_tokens := 1000,
                   temperature := cfg.temperature, prompt := prompt }] }

/-- `OdooRAG.list_all_modules`: retrieval filtered to manifests with
`k = 100`, the module-list template, one call with `max_tokens=1000`. -/
def list_all_modules {τ : Type} (cfg : RagConfig τ) (store : List Chunk) : RagRun τ :=
  let docs := search store "manifest module information" [("type", .str "manifest")] 100
  let context_str := format_context docs
  let prompt := formatPrompt module_list_template context_str
    "List all available modules with their descriptions"
  { docs := docs, template := module_list_template,
    genCalls := [{ model := cfg.model_name, max_tokens := 1000,
                   temperature := cfg.temperature, prompt := prompt }] }

/-- `OdooRAG.generate_sequence_diagram`: synthetic query, optional module
filter, `k = 10`, always the sequence-diagram template, one call with
`max_tokens=2000`. -/
def generate_sequence_diagram {τ : Type} (cfg : RagConfig τ) (store : List Chunk)
    (process_name : String) (module_name : Option String) : RagRun τ :=
  let query := "business process " ++ process_name ++ " workflow sequence"
  let filter_dict : PyDict :=
    match module_name with
    | some m => [("module", .str m)]
    | Option.none => []
  let docs := search store query filter_dict 10
  let context_str := format_context docs
  let query_str := "Create a sequence diagram for the " ++ process_name ++ " process" ++
    (match module_name with
     | some m => " in the " ++ m ++ " module"
     | Option.none => "")
  let prompt := formatPrompt sequence_diagram_template context_str query_str
  { docs := docs, template := sequence_diagram_template,
    genCalls := [{ model := cfg.model_name, max_tokens := 2000,
                   temperature := cfg.temperature, prompt := prompt }] }

/-! ## Demonstration inputs shared by witnesses and counterexamples -/

/-- A parsed model record for a synthetic `sale_ext` module, shaped exactly
as `_extract_model_info` produces it. -/
def demoModel : ModelInfo :=
  { name := "SaleOrderExtension", file_path := "/addons/sale_ext/models/sale_order.py",
    line_start := 5, line_end := 42,
    techName := .str "sale.order.ext", inherit := .str "sale.order",
    description := .str "Extension of sale orders with extra tracking information",
    fields := [], methods := [] }

/-- A parsed view record for the synthetic module, shaped exactly as
`parse_view_file` produces it. -/
def demoView : ViewInfo :=
  { id := .str "view_sale_order_ext_form", name := .str "sale.order.ext.form",
    model := .str "sale.order.ext", type := .str "form", arch := .none,
    inherit_id := .none, file_path := "/addons/sale_ext/views/sale_order_views.xml" }

/-- A synthetic indexed module. -/
def demoModule : ModuleData :=
  { name := "sale_ext", path := "/addons/sale_ext",
    manifest := [("name", .str "Sale Extension"), ("version", .str "1.0")],
    models := [demoModel], views := [demoView] }

/-- The store an indexing run over `demoModule` would populate. -/
def demoStore : List Chunk := extract_chunks_for_embedding [demoModule]

/-! ## Helper lemmas -/

/-- The accumulation loop of `parse_model_file` is filter-then-map. -/
theorem parse_model_foldl (fp : String) (cs : List ClassDef) :
    ∀ acc : List ModelInfo,
      cs.foldl (fun models c =>
        if is_odoo_model c then models ++ [extract_model_info c fp] else models) acc
      = acc ++ (cs.filter is_odoo_model).map (fun c => extract_model_info c fp) := by
  induction cs with
  | nil => intro acc; simp
  | cons c cs ih =>
      intro acc
      by_cases h : is_odoo_model c
      · simp [List.foldl_cons, h, ih, List.filter_cons]
      · simp [List.foldl_cons, h, ih, List.filter_cons]

/-- Shape of every chunk `extract_chunks_for_embedding` emits: it is the
manifest chunk of some indexed module, or the chunk of one of its models, or
the chunk of one of its views. -/
theorem mem_extract_chunks {modules : List ModuleData} {c : Chunk}
    (h : c ∈ extract_chunks_for_embedding modules) :
    (∃ md ∈ modules, c = manifestChunk md) ∨
    (∃ md ∈ modules, ∃ m ∈ md.models, c = modelChunk md.name m) ∨
    (∃ md ∈ modules, ∃ v ∈ md.views, c = viewChunk md.name v) := by
  rw [extract_chunks_for_embedding, List.mem_flatMap] at h
  obtain ⟨md, hmd, hc⟩ := h
  rw [moduleChunks, List.mem_cons, List.mem_append] at hc
  rcases hc with hc | hc | hc
  · exact Or.inl ⟨md, hmd, hc⟩
  · obtain ⟨m, hm, hmc⟩ := List.mem_map.mp hc
    exact Or.inr (Or.inl ⟨md, hmd, m, hm, hmc.symm⟩)
  · obtain ⟨v, hv, hvc⟩ := List.mem_map.mp hc
    exact Or.inr (Or.inr ⟨md, hmd, v, hv, hvc.symm⟩)

/-- No chunk the indexer emits carries a `file_path` metadata key (the
source path is stored under `path`). -/
theorem no_file_path_key {modules : List ModuleData} {c : Chunk}
    (h : c ∈ extract_chunks_for_embedding modules) :
    dictGet c.metadata "file_path" = Option.none := by
  rcases mem_extract_chunks h with ⟨md, _, rfl⟩ | ⟨md, _, m, _, rfl⟩ | ⟨md, _, v, _, rfl⟩ <;> rfl

/-- No chunk the indexer emits matches the conjunctive filter
`type = 'view' AND model = <anything>`: view chunks carry no `model` key and
the other chunk types have a different `type`. -/
theorem no_chunk_matches_view_model {modules : List ModuleData} {c : Chunk}
    (h : c ∈ extract_chunks_for_embedding modules) (model_name : String) :
    matchesWhere [("type", .str "view"), ("model", .str model_name)] c.metadata = false := by
  rcases mem_extract_chunks h with ⟨md, _, rfl⟩ | ⟨md, _, m, _, rfl⟩ | ⟨md, _, v, _, rfl⟩ <;> rfl

/-! ## Claim theorems -/

/-- **C8.** For the empty sequence of retrieved documents `_format_context`
returns the explicit "no relevant documents" sentinel string, which is not
the empty string; for a non-empty sequence it returns one labelled block per
document (`formatDoc`), in the given order, joined by newlines. -/
theorem format_context_sentinel_and_blocks :
    format_context [] = "No relevant documents found." ∧
    "No relevant documents found." ≠ "" ∧
    ∀ (d : Chunk) (ds : List Chunk),
      format_context (d :: ds) =
        String.intercalate "\n" ((d :: ds).enum.map (fun p => formatDoc (p.1 + 1) p.2)) ∧
      ((d :: ds).enum.map (fun p => formatDoc (p.1 + 1) p.2)).length = ds.length + 1 := by
  refine ⟨rfl, by decide, fun d ds => ⟨rfl, ?_⟩⟩
  simp [List.enum_length]

/-- **C5.** Template selection scans the lower-cased question in fixed
priority order: diagram keywords beat module-listing keywords, which beat
model keywords, which beat view keywords; the first category with a keyword
present wins, no match falls back to the generic template, and in particular
a question with both a diagram keyword and a model keyword resolves to the
diagram template. -/
theorem select_prompt_priority (question : String) :
    (anyKeyword (strLower question) diagram_keywords = true →
      select_prompt_for_question question = sequence_diagram_template) ∧
    (anyKeyword (strLower question) diagram_keywords = false →
      anyKeyword (strLower question) module_list_keywords = true →
      select_prompt_for_question question = module_list_template) ∧
    (anyKeyword (strLower question) diagram_keywords = false →
      anyKeyword (strLower question) module_list_keywords = false →
      anyKeyword (strLower question) model_keywords = true →
      select_prompt_for_question question = model_template) ∧
    (anyKeyword (strLower question) diagram_keywords = false →
      anyKeyword (strLower question) module_list_keywords = false →
      anyKeyword (strLower question) model_keywords = false →
      anyKeyword (strLower question) view_keywords = true →
      select_prompt_for_question question = view_template) ∧
    (anyKeyword (strLower question) diagram_keywords = false →
      anyKeyword (strLower question) module_list_keywords = false →
      anyKeyword (strLower question) model_keywords = false →
      anyKeyword (strLower question) view_keywords = false →
      select_prompt_for_question question = default_template) ∧
    (anyKeyword (strLower question) diagram_keywords = true →
      anyKeyword (strLower question) model_keywords = true →
      select_prompt_for_question question = sequence_diagram_template) := by
  refine ⟨?_, ?_, ?_, ?_, ?_, ?_⟩
  · intro h1; simp [select_prompt_for_question, h1]
  · intro h1 h2; simp [select_prompt_for_question, h1, h2]
  · intro h1 h2 h3; simp [select_prompt_for_question, h1, h2, h3]
  · intro h1 h2 h3 h4; simp [select_prompt_for_question, h1, h2, h3, h4]
  · intro h1 h2 h3 h4; simp [select_prompt_for_question, h1, h2, h3, h4]
  · intro h1 _; simp [select_prompt_for_question, h1]

/-- Witness for C5 at a concrete question holding both a diagram keyword
("sequence diagram") and a model keyword ("field"): the diagram template is
selected. -/
theorem select_prompt_priority_witness :
    anyKeyword (strLower "Show me a sequence diagram for the field workflow") diagram_keywords = true ∧
    anyKeyword (strLower "Show me a sequence diagram for the field workflow") model_keywords = true ∧
    select_prompt_for_question "Show me a sequence diagram for the field workflow" =
      sequence_diagram_template :=
  ⟨by decide, by decide,
   (select_prompt_priority "Show me a sequence diagram for the field workflow").2.2.2.2.2
     (by decide) (by decide)⟩

/-- **C4.** `search_by_model` returns the exact `model_name`-filtered
matches first (they are an initial segment of the result), the result never
exceeds `k` documents, and when the exact matches number fewer than `k` the
result is exactly those matches followed by a view-filtered search asking
only for the remaining count. -/
theorem search_by_model_spec (store : List Chunk) (query model_name : String) (k : Nat) :
    (search_by_model store query model_name k).length ≤ k ∧
    (search store query [("model_name", .str model_name)] k)
      <+: search_by_model store query model_name k ∧
    ((search store query [("model_name", .str model_name)] k).length < k →
      search_by_model store query model_name k =
        search store query [("model_name", .str model_name)] k ++
          search store query [("type", .str "view"), ("model", .str model_name)]
            (k - (search store query [("model_name", .str model_name)] k).length)) ∧
    (¬ (search store query [("model_name", .str model_name)] k).length < k →
      search_by_model store query model_name k =
        search store query [("model_name", .str model_name)] k) := by
  have hlen : ∀ (f : PyDict) (n : Nat), (search store query f n).length ≤ n := by
    intro f n; simp [search, List.length_take]
  by_cases h : (search store query [("model_name", .str model_name)] k).length < k
  · have heq : search_by_model store query model_name k =
        search store query [("model_name", .str model_name)] k ++
          search store query [("type", .str "view"), ("model", .str model_name)]
            (k - (search store query [("model_name", .str model_name)] k).length) := by
      simp [search_by_model, if_pos h]
    refine ⟨?_, ⟨_, heq.symm⟩, fun _ => heq, fun hc => absurd h hc⟩
    rw [heq, List.length_append]
    have h2 := hlen [("type", .str "view"), ("model", .str model_name)]
      (k - (search store query [("model_name", .str model_name)] k).length)
    omega
  · have heq : search_by_model store query model_name k =
        search store query [("model_name", .str model_name)] k := by
      simp [search_by_model, if_neg h]
    refine ⟨?_, ⟨[], by rw [List.append_nil, heq]⟩, fun hc => absurd hc h, fun _ => heq⟩
    rw [heq]
    exact hlen _ _

/-- Witness for C4 on the concrete demo store (one model chunk matches the
exact filter, fewer than `k = 5`): the result is the exact matches followed
by the view-filtered remainder search. -/
theorem search_by_model_spec_witness :
    (search_by_model demoStore "orders" "sale.order.ext" 5).length ≤ 5 ∧
    search_by_model demoStore "orders" "sale.order.ext" 5 =
      search demoStore "orders" [("model_name", .str "sale.order.ext")] 5 ++
        search demoStore "orders" [("type", .str "view"), ("model", .str "sale.order.ext")]
          (5 - (search demoStore "orders" [("model_name", .str "sale.order.ext")] 5).length) :=
  ⟨(search_by_model_spec demoStore "orders" "sale.order.ext" 5).1,
   (search_by_model_spec demoStore "orders" "sale.order.ext" 5).2.2.1 (by decide)⟩

/-- **C6.** `parse_model_file` yields a model record exactly for the classes
`_is_odoo_model` accepts, and `_is_odoo_model` accepts a class iff one of
its bases is a direct name in {Model, TransientModel, AbstractModel} or an
attribute whose dotted name is the `models.`-qualified form of one of them;
any other class is skipped. -/
theorem model_class_recognition (fp : String) (classes : List ClassDef) :
    parse_model_file fp (.ok classes) =
      (classes.filter is_odoo_model).map (fun c => extract_model_info c fp) ∧
    ∀ c : ClassDef, is_odoo_model c = true ↔
      ∃ b ∈ c.bases,
        (∃ n, b = PyExpr.name n ∧
          (n = "Model" ∨ n = "TransientModel" ∨ n = "AbstractModel")) ∨
        (∃ v a, b = PyExpr.attr v a ∧
          (get_attribute_full_name b = "models.Model" ∨
           get_attribute_full_name b = "models.TransientModel" ∨
           get_attribute_full_name b = "models.AbstractModel")) := by
  constructor
  · exact (parse_model_foldl fp classes []).trans (by simp)
  · intro c
    rw [is_odoo_model, List.any_eq_true]
    constructor
    · rintro ⟨b, hb, hbase⟩
      refine ⟨b, hb, ?_⟩
      cases b with
      | name n =>
          left
          refine ⟨n, rfl, ?_⟩
          have hb2 := hbase
          simp only [isOdooBase, Bool.or_eq_true, beq_iff_eq] at hb2
          tauto
      | attr v a =>
          right
          refine ⟨v, a, rfl, ?_⟩
          have hb2 := hbase
          simp only [isOdooBase, Bool.or_eq_true, beq_iff_eq] at hb2
          tauto
      | const v => simp [isOdooBase] at hbase
      | call f kws => simp [isOdooBase] at hbase
      | other => simp [isOdooBase] at hbase
    · rintro ⟨b, hb, ⟨n, rfl, hn⟩ | ⟨v, a, rfl, hq⟩⟩
      · refine ⟨_, hb, ?_⟩
        simp only [isOdooBase, Bool.or_eq_true, beq_iff_eq]
        tauto
      · refine ⟨_, hb, ?_⟩
        simp only [isOdooBase, Bool.or_eq_true, beq_iff_eq]
        tauto

/-- An ORM model class: `class SaleOrderExtension(models.Model): _name = …`. -/
def demoOrmClass : ClassDef :=
  { name := "SaleOrderExtension",
    bases := [.attr (.name "models") "Model"],
    lineno := 5, endLineno := 42,
    body := [.assign [.name "_name"] (.const (.str "sale.order.ext"))] }

/-- A class whose base matches no recognized ORM name. -/
def demoPlainClass : ClassDef :=
  { name := "Helper", bases := [.name "object"], lineno := 44, endLineno := 50,
    body := [] }

/-- Witness for C6 on a concrete parsed file holding one ORM class and one
plain class: only the ORM class yields a record. -/
theorem model_class_recognition_witness :
    parse_model_file "models/sale_order.py" (.ok [demoOrmClass, demoPlainClass]) =
      [extract_model_info demoOrmClass "models/sale_order.py"] ∧
    is_odoo_model demoPlainClass = false :=
  ⟨((model_class_recognition "models/sale_order.py" [demoOrmClass, demoPlainClass]).1).trans
     (by rfl),
   rfl⟩

/-- **C9.** Every chunk the indexer emits with metadata type `view` has
exactly the metadata keys {module, type, view_id, path} — in particular no
`model` key — so `search_by_model`'s supplemental search, filtering on
`type = 'view'` conjoined with `model = <name>`, matches no chunk this
indexer produced. -/
theorem view_chunks_never_match_supplemental (modules : List ModuleData) :
    (∀ c ∈ extract_chunks_for_embedding modules,
       dictGet c.metadata "type" = some (.str "view") →
         c.metadata.map Prod.fst = ["module", "type", "view_id", "path"] ∧
         dictGet c.metadata "model" = Option.none) ∧
    (∀ (query model_name : String) (k : Nat),
       search (extract_chunks_for_embedding modules) query
         [("type", .str "view"), ("model", .str model_name)] k = []) := by
  constructor
  · intro c hc htype
    rcases mem_extract_chunks hc with ⟨md, _, rfl⟩ | ⟨md, _, m, _, rfl⟩ | ⟨md, _, v, _, rfl⟩
    · simp [manifestChunk, dictGet, List.lookup] at htype
    · simp [modelChunk, dictGet, List.lookup] at htype
    · exact ⟨rfl, rfl⟩
  · intro query model_name k
    rw [search]
    have hnil : (extract_chunks_for_embedding modules).filter
        (fun c => matchesWhere [("type", .str "view"), ("model", .str model_name)] c.metadata)
        = [] := by
      rw [List.filter_eq_nil_iff]
      intro c hc
      simp [no_chunk_matches_view_model hc model_name]
    rw [hnil]
    exact List.take_nil

/-- Witness for C9 on the demo store: its view chunk has exactly the four
keys and no `model` key, and the supplemental view-filtered search over the
whole indexed store comes back empty. -/
theorem view_chunks_never_match_supplemental_witness :
    (viewChunk "sale_ext" demoView).metadata.map Prod.fst =
      ["module", "type", "view_id", "path"] ∧
    dictGet (viewChunk "sale_ext" demoView).metadata "model" = Option.none ∧
    search demoStore "orders" [("type", .str "view"), ("model", .str "sale.order.ext")] 5
      = [] := by
  have h := view_chunks_never_match_supplemental [demoModule]
  have hmem : viewChunk "sale_ext" demoView ∈ extract_chunks_for_embedding [demoModule] := by
    decide
  exact ⟨(h.1 _ hmem rfl).1, (h.1 _ hmem rfl).2, h.2 "orders" "sale.order.ext" 5⟩

/-- **C10.** For every chunk produced by `extract_chunks_for_embedding`, the
context block `_format_context` renders shows `unknown` in its Path slot:
the renderer reads the metadata key `file_path` while the indexer stores the
source path under `path` for every chunk type. -/
theorem format_context_path_unknown (modules : List ModuleData) :
    ∀ c ∈ extract_chunks_for_embedding modules, ∀ i : Nat,
      formatDoc i c =
        "[Document " ++ toString i ++ "] Module: " ++
          (((dictGet c.metadata "module").map PyVal.pyStr).getD "unknown") ++
          ", Path: " ++ "unknown" ++ ", Type: " ++
          (((dictGet c.metadata "type").map PyVal.pyStr).getD "unknown") ++
          "\n" ++ c.content ++ "\n" := by
  intro c hc i
  have hfp := no_file_path_key hc
  simp only [formatDoc, hfp, Option.map_none', Option.getD_none]

/-- Witness for C10: the block rendered for the demo module's model chunk
(whose metadata does carry the source path, under `path`) shows `unknown`
as its Path. -/
theorem format_context_path_unknown_witness :
    formatDoc 1 (modelChunk "sale_ext" demoModel) =
      "[Document " ++ toString 1 ++ "] Module: " ++
        (((dictGet (modelChunk "sale_ext" demoModel).metadata "module").map PyVal.pyStr).getD
          "unknown") ++
        ", Path: " ++ "unknown" ++ ", Type: " ++
        (((dictGet (modelChunk "sale_ext" demoModel).metadata "type").map PyVal.pyStr).getD
          "unknown") ++
        "\n" ++ (modelChunk "sale_ext" demoModel).content ++ "\n" :=
  format_context_path_unknown [demoModule] (modelChunk "sale_ext" demoModel) (by decide) 1

/-- Chunk count: one chunk per record — the manifest chunk plus one chunk
per model and one per view of every module. -/
theorem extract_chunks_length (modules : List ModuleData) :
    (extract_chunks_for_embedding modules).length =
      (modules.map (fun md => 1 + md.models.length + md.views.length)).sum := by
  induction modules with
  | nil => rfl
  | cons md mds ih =>
      show (moduleChunks md ++ extract_chunks_for_embedding mds).length = _
      rw [List.length_append, ih]
      simp [moduleChunks]
      omega

/-- The model record whose class name is `n + 1` copies of `a` — its chunk
text is longer than `n`. -/
def tallModel (n : Nat) : ModelInfo :=
  { name := String.mk (List.replicate (n + 1) 'a'), file_path := "f.py",
    line_start := 1, line_end := 2, techName := .none, inherit := .none,
    description := .none, fields := [], methods := [] }

/-- A module holding only `tallModel n`. -/
def tallModule (n : Nat) : ModuleData :=
  { name := "m", path := "p", manifest := [], models := [tallModel n], views := [] }

/-- **C1 (amended).** `extract_chunks_for_embedding` takes no chunk-size or
overlap configuration and never splits: it emits exactly one chunk per
record (the manifest chunk plus one per model and one per view), the text
body can exceed any given bound, and chunk metadata only ever carries the
fixed keys of its record kind — there is no sequence-index or
split-total-count tag. -/
theorem chunks_unsplit_and_untagged (modules : List ModuleData) :
    (extract_chunks_for_embedding modules).length =
      (modules.map (fun md => 1 + md.models.length + md.views.length)).sum ∧
    (∀ c ∈ extract_chunks_for_embedding modules,
       c.metadata.map Prod.fst = ["module", "type", "path"] ∨
       c.metadata.map Prod.fst =
         ["module", "type", "model_name", "path", "line_start", "line_end"] ∨
       c.metadata.map Prod.fst = ["module", "type", "view_id", "path"]) ∧
    (∀ n : Nat, ∃ tall : ModuleData, ∃ c ∈ extract_chunks_for_embedding [tall],
       n < c.content.length) := by
  refine ⟨extract_chunks_length modules, ?_, ?_⟩
  · intro c hc
    rcases mem_extract_chunks hc with ⟨md, _, rfl⟩ | ⟨md, _, m, _, rfl⟩ | ⟨md, _, v, _, rfl⟩
    · exact Or.inl rfl
    · exact Or.inr (Or.inl rfl)
    · exact Or.inr (Or.inr rfl)
  · intro n
    refine ⟨tallModule n, modelChunk "m" (tallModel n), ?_, ?_⟩
    · simp [extract_chunks_for_embedding, moduleChunks, tallModule]
    · show n < (modelChunkContent (tallModel n)).length
      simp only [modelChunkContent, tallModel, pyOr, PyVal.truthy, PyVal.pyStr,
        Bool.false_eq_true, if_false, List.isEmpty_nil, Bool.not_true,
        String.length_append, String.length_mk, List.length_replicate]
      omega

/-- Witness for C1 (amended) at the demo module: the chunk count is the
record count, and the manifest chunk's metadata keys are the fixed triple. -/
theorem chunks_unsplit_and_untagged_witness :
    (extract_chunks_for_embedding [demoModule]).length =
      ([demoModule].map (fun md => 1 + md.models.length + md.views.length)).sum ∧
    ((manifestChunk demoModule).metadata.map Prod.fst = ["module", "type", "path"] ∨
     (manifestChunk demoModule).metadata.map Prod.fst =
       ["module", "type", "model_name", "path", "line_start", "line_end"] ∨
     (manifestChunk demoModule).metadata.map Prod.fst =
       ["module", "type", "view_id", "path"]) :=
  ⟨(chunks_unsplit_and_untagged [demoModule]).1,
   (chunks_unsplit_and_untagged [demoModule]).2.1 (manifestChunk demoModule) (by decide)⟩

set_option maxRecDepth 8192 in
/-- **C1 counterexample.** Indexing the demo module yields exactly one chunk
per record: the model record's composed text is longer than 100 characters
(a configured chunk size of 100 would be exceeded), yet it is emitted as a
single whole chunk whose metadata carries only the six fixed keys — no
sequence-index and no split-total-count tag exists. -/
theorem chunks_unsplit_counterexample :
    extract_chunks_for_embedding [demoModule] =
      [manifestChunk demoModule, modelChunk "sale_ext" demoModel,
       viewChunk "sale_ext" demoView] ∧
    100 < (modelChunk "sale_ext" demoModel).content.length ∧
    (modelChunk "sale_ext" demoModel).metadata.map Prod.fst =
      ["module", "type", "model_name", "path", "line_start", "line_end"] :=
  ⟨rfl, by decide, rfl⟩

/-- **C2 counterexample.** On a concrete parse failure the extractor returns
an empty collection — no record of any kind, in particular no PlainFile
variant carrying an error-marker content (no such variant exists in the
pipeline's output types). -/
theorem extraction_failure_counterexample :
    parse_model_file "models/broken.py" (Except.error "SyntaxError: invalid syntax") =
      ([] : List ModelInfo) ∧
    parse_manifest true "\x7b'name': 'Broken Module'"
      (fun _ => Except.error "SyntaxError: unexpected EOF") = ([] : PyDict) :=
  ⟨rfl, rfl⟩

/-- **C2 (amended).** Extraction never propagates a parse failure — the
exception is caught — but the degraded result is the empty model list
(`parse_model_file`) or the empty manifest dict (`parse_manifest`), not a
degraded PlainFile record with an error-marker string. -/
theorem extraction_failure_amended :
    (∀ (fp msg : String), parse_model_file fp (Except.error msg) = []) ∧
    (∀ (content msg : String) (literalEval : String → Except String PyDict),
       literalEval content = Except.error msg →
       parse_manifest true content literalEval = []) := by
  refine ⟨fun fp msg => rfl, fun content msg ev h => ?_⟩
  simp [parse_manifest, h]

/-- Witness for C2 (amended) at a concrete failing literal-eval. -/
theorem extraction_failure_amended_witness :
    parse_manifest true "not python at all" (fun _ => Except.error "ValueError") = [] :=
  extraction_failure_amended.2 "not python at all" "ValueError" _ rfl

/-- The text of a syntactically broken manifest that still visibly contains
`name`, `version` and `depends` values. -/
def brokenManifestText : String :=
  "\x7b'name': 'Sale Extension', 'version': '1.0', 'depends': ['sale'"

/-- **C3 counterexample.** When the strict literal parse of a broken
manifest fails, `parse_manifest` returns the empty dict: no `name`,
`version` or `depends` value is recovered even though the text carries them,
because the text is never re-examined after the failure. -/
theorem manifest_fallback_counterexample :
    parse_manifest true brokenManifestText
      (fun _ => Except.error "SyntaxError: unexpected EOF") = ([] : PyDict) ∧
    dictGet (parse_manifest true brokenManifestText
      (fun _ => Except.error "SyntaxError: unexpected EOF")) "name" = Option.none ∧
    dictGet (parse_manifest true brokenManifestText
      (fun _ => Except.error "SyntaxError: unexpected EOF")) "version" = Option.none ∧
    dictGet (parse_manifest true brokenManifestText
      (fun _ => Except.error "SyntaxError: unexpected EOF")) "depends" = Option.none :=
  ⟨rfl, rfl, rfl, rfl⟩

/-- **C3 (amended).** `parse_manifest` returns the parsed dict when strict
literal evaluation succeeds and the empty dict when it fails (or when the
manifest file is missing): on failure no key at all is present — there is no
best-effort pattern-matching fallback and no partial metadata. -/
theorem manifest_fallback_amended (content : String)
    (literalEval : String → Except String PyDict) :
    (∀ d, literalEval content = Except.ok d →
       parse_manifest true content literalEval = d) ∧
    (∀ msg, literalEval content = Except.error msg →
       ∀ k, dictGet (parse_manifest true content literalEval) k = Option.none) ∧
    parse_manifest false content literalEval = [] := by
  refine ⟨fun d h => by simp [parse_manifest, h],
          fun msg h k => by simp [parse_manifest, h, dictGet],
          rfl⟩

/-- Witness for C3 (amended): the broken manifest yields no `name` key. -/
theorem manifest_fallback_amended_witness :
    dictGet (parse_manifest true brokenManifestText
      (fun _ => Except.error "SyntaxError: unexpected EOF")) "name" = Option.none :=
  (manifest_fallback_amended brokenManifestText
    (fun _ => Except.error "SyntaxError: unexpected EOF")).2.1
    "SyntaxError: unexpected EOF" rfl "name"

/-- A concrete configuration for the generation-call counterexample (the
temperature type instantiated to `Int`). -/
def cfg0 : RagConfig Int := { model_name := "claude-3-5-haiku-20241022", temperature := 0 }

/-- **C7 counterexample.** The response-length ceiling is fixed per
operation, not per template: `answer_question` on a diagram-keyword question
routes to the sequence-diagram template yet requests `max_tokens = 1000`,
while `generate_sequence_diagram` uses the same template and requests
`max_tokens = 2000` — so two requests with the very same template carry
different ceilings, and the diagram template does not always request double
the others' ceiling. -/
theorem generation_ceiling_counterexample :
    (answer_question cfg0 [] "Show me a sequence diagram" []).template =
      sequence_diagram_template ∧
    ((answer_question cfg0 [] "Show me a sequence diagram" []).genCalls.map
      (fun c => c.max_tokens)) = [1000] ∧
    (generate_sequence_diagram cfg0 [] "checkout" Option.none).template =
      sequence_diagram_template ∧
    ((generate_sequence_diagram cfg0 [] "checkout" Option.none).genCalls.map
      (fun c => c.max_tokens)) = [2000] ∧
    (1000 : Nat) ≠ 2000 :=
  ⟨rfl, rfl, rfl, rfl, by decide⟩

/-- **C7 (amended).** Every answer-producing operation issues exactly one
generation call; the response-length ceiling is fixed per operation — 1000
for `answer_question`, `answer_about_model` and `list_all_modules`, 2000
(exactly double) for `generate_sequence_diagram`, the one operation that
always uses the diagram template — and the temperature and model id are
passed through unchanged from configuration. -/
theorem generation_calls_amended {τ : Type} (cfg : RagConfig τ) (store : List Chunk)
    (question : String) (filter : PyDict) (model_name process_name : String)
    (module_name : Option String) :
    ((answer_question cfg store question filter).genCalls.map
        (fun c => (c.max_tokens, c.temperature, c.model))) =
      [(1000, cfg.temperature, cfg.model_name)] ∧
    ((answer_about_model cfg store question model_name).genCalls.map
        (fun c => (c.max_tokens, c.temperature, c.model))) =
      [(1000, cfg.temperature, cfg.model_name)] ∧
    ((list_all_modules cfg store).genCalls.map
        (fun c => (c.max_tokens, c.temperature, c.model))) =
      [(1000, cfg.temperature, cfg.model_name)] ∧
    ((generate_sequence_diagram cfg store process_name module_name).genCalls.map
        (fun c => (c.max_tokens, c.temperature, c.model))) =
      [(2000, cfg.temperature, cfg.model_name)] ∧
    (2000 : Nat) = 2 * 1000 :=
  ⟨rfl, rfl, rfl, rfl, rfl⟩

end OdooRag
